import Mathlib

/-!
Shallow embedding of the go-lambda-template provisioning and deployment
tooling.  The repository shells out to external commands (the aws CLI and
docker); we model each external invocation by an entry of a `World` record
that fixes the outcome the environment would give that invocation, and each
Go function as a Lean function from the `World` (plus its arguments) to its
result together with the list of external calls it issued, in order.
-/

/-- Marker substring used by setup main.go to recognise an ECR repository
that already exists. -/
def repoExistsMarker : String := "RepositoryAlreadyExistsException"

/-- Marker substring used by setup main.go to recognise a Lambda function
that already exists. -/
def fnConflictMarker : String := "ResourceConflictException"

/-- Whether the first character list starts with the second one. -/
def charsStartWith : List Char → List Char → Bool
  | _, [] => true
  | [], _ :: _ => false
  | a :: as, b :: bs => a == b && charsStartWith as bs

/-- Whether the second character list occurs contiguously somewhere inside
the first one. -/
def charsContain : List Char → List Char → Bool
  | [], needle => charsStartWith [] needle
  | h :: t, needle => charsStartWith (h :: t) needle || charsContain t needle

/-- Boolean substring test standing for strings.Contains from the Go
standard library: true when needle occurs somewhere inside haystack. -/
def containsSubstr (haystack needle : String) : Bool :=
  charsContain haystack.data needle.data

/-- The deployment configuration carried by config.yaml, mirroring the
Config struct shared by the setup, deploy and teardown commands. -/
structure Config where
  region : String
  profile : String
  functionName : String
  roleName : String
  repositoryName : String
  deriving Repr, DecidableEq

/-- The parsed YAML document: each key may be present or absent.  Decoding
into the Config struct fills absent keys with the Go zero value, the empty
string, exactly as yaml.Unmarshal does. -/
structure YamlDoc where
  region : Option String
  profile : Option String
  functionName : Option String
  roleName : Option String
  repositoryName : Option String
  deriving Repr, DecidableEq

/-- Decoding a parsed document into a Config: absent keys become the empty
string (the Go zero value for string fields). -/
def decodeConfig (d : YamlDoc) : Config :=
  { region := d.region.getD ("")
    profile := d.profile.getD ("")
    functionName := d.functionName.getD ("")
    roleName := d.roleName.getD ("")
    repositoryName := d.repositoryName.getD ("") }

/-- Outcome of reading and YAML-parsing config.yaml: the read can fail, the
parse can fail, or a document is produced. -/
inductive ReadResult where
  | readError (msg : String)
  | parseError (msg : String)
  | ok (doc : YamlDoc)
  deriving Repr, DecidableEq

/-- The loadConfig functions of setup and deploy main.go: a read error or a
parse error is reported as an error; otherwise the document is decoded into
the global Config with no validation of any field. -/
def loadConfig (r : ReadResult) : Except String Config :=
  match r with
  | .readError m => .error ((("error reading config file: ") : String) ++ m)
  | .parseError m => .error ((("error parsing config file: ") : String) ++ m)
  | .ok d => .ok (decodeConfig d)

/-- Outcome of an external command whose successful output is then parsed
by the Go code (aws iam get-role, create-role, sts get-caller-identity):
either the command failed with some combined output, or it succeeded and
the JSON parse failed, or it succeeded and a value was extracted. -/
inductive CmdParse (α : Type) where
  | cmdError (output : String)
  | parseError (msg : String)
  | ok (value : α)
  deriving Repr, DecidableEq

/-- Whether a parsed-command outcome is a success. -/
def CmdParse.isOkB : CmdParse α → Bool
  | .ok _ => true
  | _ => false

/-- Whether a parsed-command outcome is a failure of the command itself
(as opposed to a parse failure of its output). -/
def CmdParse.isCmdErrorB : CmdParse α → Bool
  | .cmdError _ => true
  | _ => false

/-- Whether an Except value is a success. -/
def Except.isOkB : Except ε α → Bool
  | .ok _ => true
  | .error _ => false

/-- One external call issued by the tooling, carrying the arguments the
specification claims talk about. -/
inductive Call where
  | iamGetRole (roleName : String)
  | iamCreateRole (roleName : String)
  | iamAttachRolePolicy (roleName policyArn : String)
  | ecrCreateRepository (repoName : String)
  | stsGetCallerIdentity
  | iamGetUser
  | ecrGetLoginPassword
  | dockerLogin (registry : String)
  | dockerBuild (tag : String)
  | dockerTag (src dst : String)
  | dockerPush (tag : String)
  | lambdaCreateFunction (fnName imageUri roleArn : String)
  | lambdaUpdateFunctionCode (fnName imageUri : String)
  | lambdaDeleteFunction (fnName : String)
  | ecrDeleteRepository (repoName : String) (force : Bool)
  deriving Repr, DecidableEq

/-- Outcomes the environment gives to each external command the tooling
can issue.  Each run consults the entry at most once, so a record of fixed
outcomes models one run exactly. -/
structure World where
  getRole : CmdParse String
  createRole : CmdParse String
  attachPolicy : Except String Unit
  createRepo : Except String Unit
  getCallerAccount : CmdParse String
  iamGetUser : Except String Unit
  getLoginPassword : Except String String
  dockerLogin : Except String Unit
  dockerBuild : Except String Unit
  dockerTag : Except String Unit
  dockerPush : Except String Unit
  createFunction : Except String Unit
  updateFunctionCode : Except String Unit
  newSession : Except String Unit
  deleteFunction : Except String Unit
  deleteRepository : Except String Unit
  deriving Repr

/-- Managed policy attached by getOrCreateLambdaExecutionRole. -/
def basicExecutionPolicyArn : String :=
  "arn:aws:iam::aws:policy/service-role/AWSLambdaBasicExecutionRole"

/-- The getOrCreateLambdaExecutionRole function of setup main.go.  It runs
aws iam get-role; when that command succeeds and its output parses, the
existing ARN is returned.  When the command fails — for any reason, the
output is not inspected — it runs aws iam create-role and then
aws iam attach-role-policy, failing on any error of those, and returns the
created ARN.  A parse failure of a successful get-role is an error. -/
def getOrCreateLambdaExecutionRole (w : World) (cfg : Config) :
    Except String String × List Call :=
  match w.getRole with
  | .ok arn => (.ok arn, [.iamGetRole cfg.roleName])
  | .parseError m =>
      (.error ((("error parsing role response: ") : String) ++ m),
       [.iamGetRole cfg.roleName])
  | .cmdError _ =>
    match w.createRole with
    | .cmdError out =>
        (.error ((("error creating IAM role: ") : String) ++ out),
         [.iamGetRole cfg.roleName, .iamCreateRole cfg.roleName])
    | .parseError m =>
        (.error ((("error parsing role creation response: ") : String) ++ m),
         [.iamGetRole cfg.roleName, .iamCreateRole cfg.roleName])
    | .ok arn =>
      match w.attachPolicy with
      | .error out =>
          (.error ((("error attaching policy to role: ") : String) ++ out),
           [.iamGetRole cfg.roleName, .iamCreateRole cfg.roleName,
            .iamAttachRolePolicy cfg.roleName basicExecutionPolicyArn])
      | .ok _ =>
          (.ok arn,
           [.iamGetRole cfg.roleName, .iamCreateRole cfg.roleName,
            .iamAttachRolePolicy cfg.roleName basicExecutionPolicyArn])

/-- The createECRRepository function of setup main.go: a failure whose
combined output contains the already-exists marker is classified as
success; any other failure is an error. -/
def createECRRepository (w : World) (cfg : Config) :
    Except String Unit × List Call :=
  match w.createRepo with
  | .ok _ => (.ok (), [.ecrCreateRepository cfg.repositoryName])
  | .error out =>
    if containsSubstr out repoExistsMarker then
      (.ok (), [.ecrCreateRepository cfg.repositoryName])
    else
      (.error ((("error creating ECR repository: ") : String) ++ out),
       [.ecrCreateRepository cfg.repositoryName])

/-- The getAWSAccountID function shared by setup and deploy main.go. -/
def getAWSAccountID (w : World) : Except String String × List Call :=
  match w.getCallerAccount with
  | .ok acct => (.ok acct, [.stsGetCallerIdentity])
  | .parseError m =>
      (.error ((("failed to parse AWS Account ID: ") : String) ++ m),
       [.stsGetCallerIdentity])
  | .cmdError _ =>
      (.error (("failed to get AWS Account ID") : String),
       [.stsGetCallerIdentity])

/-- The image URI format string of setup main.go (used both by
buildAndPushDockerImage and by createLambdaFunction). -/
def setupImageUri (acct region repo : String) : String :=
  acct ++ ".dkr.ecr." ++ region ++ ".amazonaws.com/" ++ repo ++ ":latest"

/-- The image URI format string of deploy main.go (used by tagDockerImage,
pushDockerImage and updateLambdaFunction). -/
def deployImageUri (acct region repo : String) : String :=
  acct ++ ".dkr.ecr." ++ region ++ ".amazonaws.com/" ++ repo ++ ":latest"

/-- The registry host of deploy main.go (authenticateDocker). -/
def ecrRegistryHost (acct region : String) : String :=
  acct ++ ".dkr.ecr." ++ region ++ ".amazonaws.com"

/-- The buildAndPushDockerImage function of setup main.go.  Four external
steps in order: aws ecr get-login-password, docker build, docker tag,
docker push; each failure aborts immediately with an error. -/
def buildAndPushDockerImage (w : World) (cfg : Config) (acct : String) :
    Except String Unit × List Call :=
  match w.getLoginPassword with
  | .error _ => (.error (("failed to get ECR login") : String),
                 [.ecrGetLoginPassword])
  | .ok _ =>
    match w.dockerBuild with
    | .error _ => (.error (("failed to build Docker image") : String),
                   [.ecrGetLoginPassword, .dockerBuild cfg.repositoryName])
    | .ok _ =>
      match w.dockerTag with
      | .error _ =>
          (.error (("failed to tag Docker image") : String),
           [.ecrGetLoginPassword, .dockerBuild cfg.repositoryName,
            .dockerTag cfg.repositoryName
              (setupImageUri acct cfg.region cfg.repositoryName)])
      | .ok _ =>
        match w.dockerPush with
        | .error _ =>
            (.error (("failed to push Docker image to ECR") : String),
             [.ecrGetLoginPassword, .dockerBuild cfg.repositoryName,
              .dockerTag cfg.repositoryName
                (setupImageUri acct cfg.region cfg.repositoryName),
              .dockerPush (setupImageUri acct cfg.region cfg.repositoryName)])
        | .ok _ =>
            (.ok (),
             [.ecrGetLoginPassword, .dockerBuild cfg.repositoryName,
              .dockerTag cfg.repositoryName
                (setupImageUri acct cfg.region cfg.repositoryName),
              .dockerPush (setupImageUri acct cfg.region cfg.repositoryName)])

/-- The createLambdaFunction function of setup main.go: a failure whose
combined output contains the resource-conflict marker is classified as
success; any other failure is an error. -/
def createLambdaFunction (w : World) (cfg : Config)
    (roleArn acct : String) : Except String Unit × List Call :=
  let uri := setupImageUri acct cfg.region cfg.repositoryName
  match w.createFunction with
  | .ok _ => (.ok (), [.lambdaCreateFunction cfg.functionName uri roleArn])
  | .error out =>
    if containsSubstr out fnConflictMarker then
      (.ok (), [.lambdaCreateFunction cfg.functionName uri roleArn])
    else
      (.error ((("error creating Lambda function: ") : String) ++ out),
       [.lambdaCreateFunction cfg.functionName uri roleArn])

/-- The checkIAMPermissions function of deploy main.go. -/
def checkIAMPermissions (w : World) : Except String Unit × List Call :=
  match w.iamGetUser with
  | .error out =>
      (.error ((("failed to get IAM user info: ") : String) ++ out),
       [.iamGetUser])
  | .ok _ => (.ok (), [.iamGetUser])

/-- The buildDockerImage function of deploy main.go: docker build tagged
with repositoryName/functionName. -/
def buildDockerImage (w : World) (cfg : Config) :
    Except String Unit × List Call :=
  match w.dockerBuild with
  | .error _ =>
      (.error (("failed to build Docker image") : String),
       [.dockerBuild (cfg.repositoryName ++ "/" ++ cfg.functionName)])
  | .ok _ => (.ok (), [.dockerBuild (cfg.repositoryName ++ "/" ++ cfg.functionName)])

/-- The authenticateDocker function of deploy main.go: obtains the login
password, then performs docker login against the registry host. -/
def authenticateDocker (w : World) (cfg : Config) (acct : String) :
    Except String Unit × List Call :=
  match w.getLoginPassword with
  | .error _ =>
      (.error (("failed to get ECR login password") : String),
       [.ecrGetLoginPassword])
  | .ok _ =>
    match w.dockerLogin with
    | .error _ =>
        (.error (("failed to login to ECR") : String),
         [.ecrGetLoginPassword, .dockerLogin (ecrRegistryHost acct cfg.region)])
    | .ok _ =>
        (.ok (), [.ecrGetLoginPassword, .dockerLogin (ecrRegistryHost acct cfg.region)])

/-- The tagDockerImage function of deploy main.go. -/
def tagDockerImage (w : World) (cfg : Config) (acct : String) :
    Except String Unit × List Call :=
  let src := cfg.repositoryName ++ "/" ++ cfg.functionName ++ ":latest"
  let dst := deployImageUri acct cfg.region cfg.repositoryName
  match w.dockerTag with
  | .error _ =>
      (.error (("failed to tag Docker image") : String), [.dockerTag src dst])
  | .ok _ => (.ok (), [.dockerTag src dst])

/-- The pushDockerImage function of deploy main.go. -/
def pushDockerImage (w : World) (cfg : Config) (acct : String) :
    Except String Unit × List Call :=
  let dst := deployImageUri acct cfg.region cfg.repositoryName
  match w.dockerPush with
  | .error _ =>
      (.error (("failed to push Docker image to ECR") : String),
       [.dockerPush dst])
  | .ok _ => (.ok (), [.dockerPush dst])

/-- The updateLambdaFunction function of deploy main.go. -/
def updateLambdaFunction (w : World) (cfg : Config) (acct : String) :
    Except String Unit × List Call :=
  let uri := deployImageUri acct cfg.region cfg.repositoryName
  match w.updateFunctionCode with
  | .error out =>
      (.error ((("failed to update Lambda function code: ") : String) ++ out),
       [.lambdaUpdateFunctionCode cfg.functionName uri])
  | .ok _ => (.ok (), [.lambdaUpdateFunctionCode cfg.functionName uri])

/-- Result of one run of a command-line entry point: the process exit code
(log.Fatalf exits 1, reaching the end of main exits 0) and the external
calls issued, in order. -/
structure RunResult where
  exitCode : Nat
  calls : List Call
  deriving Repr, DecidableEq

/-- Lines 36 to 45 of setup main.go: the role ARN comes verbatim from the
LAMBDA_EXECUTION_ROLE_ARN environment variable when that is non-empty;
only when it is empty is getOrCreateLambdaExecutionRole invoked. -/
def resolveRole (w : World) (env : String) (cfg : Config) :
    Except String String × List Call :=
  if env = "" then getOrCreateLambdaExecutionRole w cfg
  else (.ok env, [])

/-- The main function of setup main.go (the Provision run).  loadConfig
failure, role-resolution failure, account-lookup failure and image-pipeline
failure are fatal (log.Fatalf, exit 1); an error from createECRRepository
and an error from createLambdaFunction are only logged (log.Printf) and the
run continues to exit 0. -/
def setupMain (w : World) (env : String) (r : ReadResult) : RunResult :=
  match loadConfig r with
  | .error _ => { exitCode := 1, calls := [] }
  | .ok cfg =>
    match resolveRole w env cfg with
    | (.error _, c₁) => { exitCode := 1, calls := c₁ }
    | (.ok roleArn, c₁) =>
      let repoStep := createECRRepository w cfg
      let c₂ := repoStep.2
      match getAWSAccountID w with
      | (.error _, c₃) => { exitCode := 1, calls := c₁ ++ c₂ ++ c₃ }
      | (.ok acct, c₃) =>
        match buildAndPushDockerImage w cfg acct with
        | (.error _, c₄) => { exitCode := 1, calls := c₁ ++ c₂ ++ c₃ ++ c₄ }
        | (.ok _, c₄) =>
          let fnStep := createLambdaFunction w cfg roleArn acct
          { exitCode := 0, calls := c₁ ++ c₂ ++ c₃ ++ c₄ ++ fnStep.2 }

/-- The main function of deploy main.go (the Deploy run): loadConfig, IAM
permission check, account lookup, then docker build, then authenticate,
then tag, then push, then the function-code update — every failure fatal
(log.Fatalf, exit 1). -/
def deployMain (w : World) (r : ReadResult) : RunResult :=
  match loadConfig r with
  | .error _ => { exitCode := 1, calls := [] }
  | .ok cfg =>
    match checkIAMPermissions w with
    | (.error _, c₁) => { exitCode := 1, calls := c₁ }
    | (.ok _, c₁) =>
      match getAWSAccountID w with
      | (.error _, c₂) => { exitCode := 1, calls := c₁ ++ c₂ }
      | (.ok acct, c₂) =>
        match buildDockerImage w cfg with
        | (.error _, c₃) => { exitCode := 1, calls := c₁ ++ c₂ ++ c₃ }
        | (.ok _, c₃) =>
          match authenticateDocker w cfg acct with
          | (.error _, c₄) => { exitCode := 1, calls := c₁ ++ c₂ ++ c₃ ++ c₄ }
          | (.ok _, c₄) =>
            match tagDockerImage w cfg acct with
            | (.error _, c₅) =>
                { exitCode := 1, calls := c₁ ++ c₂ ++ c₃ ++ c₄ ++ c₅ }
            | (.ok _, c₅) =>
              match pushDockerImage w cfg acct with
              | (.error _, c₆) =>
                  { exitCode := 1, calls := c₁ ++ c₂ ++ c₃ ++ c₄ ++ c₅ ++ c₆ }
              | (.ok _, c₆) =>
                match updateLambdaFunction w cfg acct with
                | (.error _, c₇) =>
                    { exitCode := 1,
                      calls := c₁ ++ c₂ ++ c₃ ++ c₄ ++ c₅ ++ c₆ ++ c₇ }
                | (.ok _, c₇) =>
                    { exitCode := 0,
                      calls := c₁ ++ c₂ ++ c₃ ++ c₄ ++ c₅ ++ c₆ ++ c₇ }

/-- How a teardown run ended. -/
inductive TeardownOutcome where
  | loadFailed
  | cancelled
  | sessionFailed
  | completed
  deriving Repr, DecidableEq

/-- Result of one teardown run. -/
structure TeardownResult where
  outcome : TeardownOutcome
  exitCode : Nat
  calls : List Call
  deriving Repr, DecidableEq

/-- The confirmation test of the teardown main: the run proceeds exactly
when the input is the single letter y in either case. -/
def isAffirmative (input : String) : Bool := input == "y" || input == "Y"

/-- The teardown main function: after a successful config load it prompts
for confirmation; any input other than y or Y cancels with no calls and a
zero exit (plain return from main).  On confirmation it creates the AWS
session (log.Fatalf on failure), then always attempts both the function
deletion and the forced repository deletion; each failure is only logged
(log.Printf) and the run exits 0 regardless. -/
def teardownMain (w : World) (r : ReadResult) (input : String) :
    TeardownResult :=
  match loadConfig r with
  | .error _ => { outcome := .loadFailed, exitCode := 1, calls := [] }
  | .ok cfg =>
    if isAffirmative input then
      match w.newSession with
      | .error _ => { outcome := .sessionFailed, exitCode := 1, calls := [] }
      | .ok _ =>
          { outcome := .completed, exitCode := 0,
            calls := [.lambdaDeleteFunction cfg.functionName,
                      .ecrDeleteRepository cfg.repositoryName true] }
    else { outcome := .cancelled, exitCode := 0, calls := [] }

/-- The Lambda event of cmd/lambda/main.go. -/
structure Event where
  name : String
  deriving Repr, DecidableEq

/-- The HandleRequest function of cmd/lambda/main.go (its error result is
always nil, so only the string is modelled). -/
def handleRequest (e : Event) : String :=
  if e.name ≠ ("") then ("Hello, ") ++ e.name ++ ("!")
  else ("Hello, World!")

/-- JSON decoding of the invocation payload into the Event struct: a
missing name field leaves the Go zero value, the empty string. -/
def decodeEvent (name? : Option String) : Event :=
  { name := name?.getD ("") }

/-- Remote IAM state backing the identity calls of a Provision run,
reduced to what the run consults: whether the role of the configured name
exists and, when it does, its ARN. -/
structure IamState where
  role : Option String
  deriving Repr, DecidableEq

/-- Combined output the aws CLI gives a get-role on an absent role. -/
def noSuchEntityOutput : String :=
  "An error occurred (NoSuchEntity) when calling the GetRole operation"

/-- Semantics of aws iam get-role against the backing state: the ARN when
the role exists, a failing command otherwise. -/
def lookupRole (s : IamState) : CmdParse String :=
  match s.role with
  | some arn => .ok arn
  | none => .cmdError noSuchEntityOutput

/-- ARN the backing remote assigns to the role it creates. -/
def createdRoleArn (cfg : Config) : String :=
  ("arn:aws:iam::123456789012:role/") ++ cfg.roleName

/-- The world a given backing IAM state presents to one run: get-role
follows the state, create-role succeeds returning the assigned ARN, and
the policy attachment succeeds.  Fields irrelevant to the identity calls
are taken from an arbitrary base world. -/
def iamWorld (cfg : Config) (s : IamState) (base : World) : World :=
  { base with
    getRole := lookupRole s
    createRole := .ok (createdRoleArn cfg)
    attachPolicy := .ok () }

/-- The backing IAM state after one run of getOrCreateLambdaExecutionRole:
unchanged when the role existed, holding the created role otherwise. -/
def iamStep (cfg : Config) (s : IamState) : IamState :=
  match s.role with
  | some _ => s
  | none => { role := some (createdRoleArn cfg) }

/-- Abstract names of the four image-pipeline sub-steps. -/
inductive SubStep where
  | authenticate
  | build
  | tag
  | push
  deriving Repr, DecidableEq

/-- The sub-step a call begins, if any: obtaining the login password opens
Authenticate (the deploy docker login is its interior), docker build opens
Build, docker tag opens Tag, docker push opens Push. -/
def subStepOf : Call → Option SubStep
  | .ecrGetLoginPassword => some .authenticate
  | .dockerBuild _ => some .build
  | .dockerTag _ _ => some .tag
  | .dockerPush _ => some .push
  | _ => none

/-- The sequence of image-pipeline sub-steps a call trace entered. -/
def imageSubSteps (calls : List Call) : List SubStep :=
  calls.filterMap subStepOf

/-- Modelled from the spec: the trace of a strictly sequential fail-fast
pipeline over a given sub-step order — each sub-step runs only when every
earlier one succeeded, and a failing sub-step is the last one entered. -/
def seqTrace (succ : SubStep → Bool) : List SubStep → List SubStep
  | [] => []
  | s :: rest => if succ s then s :: seqTrace succ rest else [s]

/-- Image sub-step order of the Provision run (buildAndPushDockerImage). -/
def setupOrder : List SubStep := [.authenticate, .build, .tag, .push]

/-- Image sub-step order of the Deploy run (deploy main.go). -/
def deployOrder : List SubStep := [.build, .authenticate, .tag, .push]

/-- Whether each sub-step of the Provision image pipeline succeeds in a
given world. -/
def setupSubSucc (w : World) : SubStep → Bool
  | .authenticate => w.getLoginPassword.isOkB
  | .build => w.dockerBuild.isOkB
  | .tag => w.dockerTag.isOkB
  | .push => w.dockerPush.isOkB

/-- Whether each sub-step of the Deploy image pipeline succeeds in a given
world; Authenticate comprises both the password fetch and docker login. -/
def deploySubSucc (w : World) : SubStep → Bool
  | .authenticate => w.getLoginPassword.isOkB && w.dockerLogin.isOkB
  | .build => w.dockerBuild.isOkB
  | .tag => w.dockerTag.isOkB
  | .push => w.dockerPush.isOkB

/-- Modelled from the spec: the ImageReference entity of the data model —
registry host, repository name and tag. -/
structure ImageRef where
  registryHost : String
  repositoryName : String
  tag : String
  deriving Repr, DecidableEq

/-- Modelled from the spec: rendering an ImageReference as
registryHost/repositoryName:tag. -/
def renderImageRef (ir : ImageRef) : String :=
  ir.registryHost ++ ("/") ++ ir.repositoryName ++ (":") ++ ir.tag

/-- Example configuration document matching the config.yaml of the
repository. -/
def exDoc : YamlDoc :=
  { region := some ("us-west-2")
    profile := some ("personal")
    functionName := some ("hello-world-lambda")
    roleName := some ("hello-world-role")
    repositoryName := some ("hello-world-repo") }

/-- Example configuration decoded from the example document. -/
def exCfg : Config := decodeConfig exDoc

/-- A world in which every external command succeeds. -/
def allOkWorld : World :=
  { getRole := .ok ("arn:aws:iam::123456789012:role/hello-world-role")
    createRole := .ok ("arn:aws:iam::123456789012:role/hello-world-role")
    attachPolicy := .ok ()
    createRepo := .ok ()
    getCallerAccount := .ok ("123456789012")
    iamGetUser := .ok ()
    getLoginPassword := .ok ("password")
    dockerLogin := .ok ()
    dockerBuild := .ok ()
    dockerTag := .ok ()
    dockerPush := .ok ()
    createFunction := .ok ()
    updateFunctionCode := .ok ()
    newSession := .ok ()
    deleteFunction := .ok ()
    deleteRepository := .ok () }

/-- Combined output of a get-role call failing for a reason other than an
absent role. -/
def accessDeniedOutput : String :=
  "An error occurred (AccessDenied) when calling the GetRole operation: not authorized to perform iam:GetRole"

/-- World in which the role lookup command fails with an access-denied
output and everything else succeeds. -/
def deniedWorld : World := { allOkWorld with getRole := .cmdError accessDeniedOutput }

/-- Combined output of a failing create-role call. -/
def roleCreateFailOutput : String :=
  "An error occurred (LimitExceeded) when calling the CreateRole operation"

/-- World in which both the role lookup and the role creation fail. -/
def roleFailWorld : World :=
  { allOkWorld with
    getRole := .cmdError accessDeniedOutput
    createRole := .cmdError roleCreateFailOutput }

/-- Combined output of a generic failing create-function call. -/
def fnFailOutput : String :=
  "An error occurred (ServiceException) when calling the CreateFunction operation"

/-- World in which the function-create call fails with a generic error. -/
def fnBoomWorld : World := { allOkWorld with createFunction := .error fnFailOutput }

/-- Combined output of a create-function call on an existing function. -/
def fnConflictOutput : String :=
  "An error occurred (ResourceConflictException) when calling the CreateFunction operation: Function already exist"

/-- World in which the function-create call fails because the function
already exists. -/
def fnConflictWorld : World := { allOkWorld with createFunction := .error fnConflictOutput }

/-- Combined output of a generic failing create-repository call. -/
def repoFailOutput : String :=
  "An error occurred (AccessDeniedException) when calling the CreateRepository operation"

/-- World in which repository creation fails with a generic error. -/
def repoBoomWorld : World := { allOkWorld with createRepo := .error repoFailOutput }

/-- Combined output of a create-repository call on an existing repository. -/
def repoExistsOutput : String :=
  "An error occurred (RepositoryAlreadyExistsException) when calling the CreateRepository operation"

/-- World in which repository creation fails because the repository already
exists. -/
def repoExistsWorld : World := { allOkWorld with createRepo := .error repoExistsOutput }

/-- World in which the function deletion fails and everything else
succeeds. -/
def deleteFailWorld : World :=
  { allOkWorld with deleteFunction := .error ("delete failed") }

/-- World in which the docker tag step fails and everything else
succeeds. -/
def wTagFail : World := { allOkWorld with dockerTag := .error ("tag failed") }

/-- Parsed configuration document with every key absent. -/
def emptyDoc : YamlDoc :=
  { region := none, profile := none, functionName := none,
    roleName := none, repositoryName := none }

/-- Shape every call issued by a Provision run must have: each argument is
drawn unchanged from the loaded configuration, identity calls happen only
when the role environment variable was empty, image URIs come from the
account the sts lookup returned, and a non-empty environment ARN is passed
verbatim to the function-create call. -/
def SetupCallOk (w : World) (cfg : Config) (env : String) : Call → Prop
  | .iamGetRole n => n = cfg.roleName ∧ env = ("")
  | .iamCreateRole n => n = cfg.roleName ∧ env = ("")
  | .iamAttachRolePolicy n p =>
      n = cfg.roleName ∧ p = basicExecutionPolicyArn ∧ env = ("")
  | .ecrCreateRepository n => n = cfg.repositoryName
  | .stsGetCallerIdentity => True
  | .ecrGetLoginPassword => True
  | .dockerBuild t => t = cfg.repositoryName
  | .dockerTag s t =>
      s = cfg.repositoryName ∧
      ∃ acct, w.getCallerAccount = .ok acct ∧
        t = setupImageUri acct cfg.region cfg.repositoryName
  | .dockerPush t =>
      ∃ acct, w.getCallerAccount = .ok acct ∧
        t = setupImageUri acct cfg.region cfg.repositoryName
  | .lambdaCreateFunction n u a =>
      n = cfg.functionName ∧
      (∃ acct, w.getCallerAccount = .ok acct ∧
        u = setupImageUri acct cfg.region cfg.repositoryName) ∧
      (env ≠ ("") → a = env)
  | _ => False

/-- Shape every call issued by a Deploy run must have: each argument is
drawn unchanged from the loaded configuration and the account returned by
the sts lookup; in particular no repository-creation call ever occurs. -/
def DeployCallOk (w : World) (cfg : Config) : Call → Prop
  | .iamGetUser => True
  | .stsGetCallerIdentity => True
  | .ecrGetLoginPassword => True
  | .dockerLogin h =>
      ∃ acct, w.getCallerAccount = .ok acct ∧ h = ecrRegistryHost acct cfg.region
  | .dockerBuild t => t = cfg.repositoryName ++ ("/") ++ cfg.functionName
  | .dockerTag s t =>
      s = cfg.repositoryName ++ ("/") ++ cfg.functionName ++ (":latest") ∧
      ∃ acct, w.getCallerAccount = .ok acct ∧
        t = deployImageUri acct cfg.region cfg.repositoryName
  | .dockerPush t =>
      ∃ acct, w.getCallerAccount = .ok acct ∧
        t = deployImageUri acct cfg.region cfg.repositoryName
  | .lambdaUpdateFunctionCode n u =>
      n = cfg.functionName ∧
      ∃ acct, w.getCallerAccount = .ok acct ∧
        u = deployImageUri acct cfg.region cfg.repositoryName
  | _ => False

theorem resolveRole_calls_ok (w : World) (env : String) (cfg : Config) :
    ∀ c ∈ (resolveRole w env cfg).2, SetupCallOk w cfg env c := by
  intro c hc
  by_cases he : env = ("")
  · simp only [resolveRole, if_pos he, getOrCreateLambdaExecutionRole] at hc
    rcases hg : w.getRole with o | m | arn <;> simp only [hg] at hc
    · rcases hr : w.createRole with o₂ | m₂ | arn₂ <;> simp only [hr] at hc
      · simp only [List.mem_cons, List.not_mem_nil, or_false] at hc
        rcases hc with rfl | rfl <;> simp [SetupCallOk, he]
      · simp only [List.mem_cons, List.not_mem_nil, or_false] at hc
        rcases hc with rfl | rfl <;> simp [SetupCallOk, he]
      · rcases ha : w.attachPolicy with e | u <;> simp only [ha] at hc <;>
          simp only [List.mem_cons, List.not_mem_nil, or_false] at hc <;>
          rcases hc with rfl | rfl | rfl <;> simp [SetupCallOk, he]
    · simp only [List.mem_cons, List.not_mem_nil, or_false] at hc
      rcases hc with rfl
      simp [SetupCallOk, he]
    · simp only [List.mem_cons, List.not_mem_nil, or_false] at hc
      rcases hc with rfl
      simp [SetupCallOk, he]
  · simp only [resolveRole, if_neg he] at hc
    simp at hc

theorem resolveRole_env_nonempty (w : World) (env : String) (cfg : Config)
    (he : env ≠ ("")) : resolveRole w env cfg = (.ok env, []) := by
  simp [resolveRole, he]

theorem createECRRepository_trace (w : World) (cfg : Config) :
    (createECRRepository w cfg).2 = [.ecrCreateRepository cfg.repositoryName] := by
  cases hr : w.createRepo <;> simp only [createECRRepository, hr]
  split <;> rfl

theorem getAWSAccountID_trace (w : World) :
    (getAWSAccountID w).2 = [.stsGetCallerIdentity] := by
  cases hg : w.getCallerAccount <;> simp [getAWSAccountID, hg]

theorem getAWSAccountID_ok (w : World) (acct : String)
    (hg : w.getCallerAccount = .ok acct) :
    getAWSAccountID w = (.ok acct, [.stsGetCallerIdentity]) := by
  simp [getAWSAccountID, hg]

theorem createLambdaFunction_trace (w : World) (cfg : Config)
    (arn acct : String) :
    (createLambdaFunction w cfg arn acct).2
      = [.lambdaCreateFunction cfg.functionName
           (setupImageUri acct cfg.region cfg.repositoryName) arn] := by
  cases hf : w.createFunction <;> simp only [createLambdaFunction, hf]
  split <;> rfl

theorem buildAndPush_calls_ok (w : World) (env : String) (cfg : Config)
    (acct : String) (hg : w.getCallerAccount = .ok acct) :
    ∀ c ∈ (buildAndPushDockerImage w cfg acct).2, SetupCallOk w cfg env c := by
  intro c hc
  unfold buildAndPushDockerImage at hc
  rcases hl : w.getLoginPassword with e | v <;> simp only [hl] at hc <;>
    [skip;
     rcases hb : w.dockerBuild with e | v₂ <;> simp only [hb] at hc <;>
      [skip;
       rcases ht : w.dockerTag with e | v₃ <;> simp only [ht] at hc <;>
        [skip;
         rcases hp : w.dockerPush with e | v₄ <;> simp only [hp] at hc]]] <;>
    simp only [List.mem_cons, List.not_mem_nil, or_false] at hc <;>
    (rcases hc with rfl | rfl | rfl | rfl <;>
      simp [SetupCallOk]) <;> exact ⟨acct, hg, rfl⟩

theorem checkIAMPermissions_trace (w : World) :
    (checkIAMPermissions w).2 = [.iamGetUser] := by
  cases h : w.iamGetUser <;> simp [checkIAMPermissions, h]

theorem buildDockerImage_trace (w : World) (cfg : Config) :
    (buildDockerImage w cfg).2
      = [.dockerBuild (cfg.repositoryName ++ ("/") ++ cfg.functionName)] := by
  cases h : w.dockerBuild <;> simp [buildDockerImage, h]

theorem authenticateDocker_calls_ok (w : World) (cfg : Config) (acct : String)
    (hg : w.getCallerAccount = .ok acct) :
    ∀ c ∈ (authenticateDocker w cfg acct).2, DeployCallOk w cfg c := by
  intro c hc
  unfold authenticateDocker at hc
  rcases hl : w.getLoginPassword with e | v <;> simp only [hl] at hc
  · simp only [List.mem_cons, List.not_mem_nil, or_false] at hc
    rcases hc with rfl
    simp [DeployCallOk]
  · rcases hd : w.dockerLogin with e | v₂ <;> simp only [hd] at hc <;>
      simp only [List.mem_cons, List.not_mem_nil, or_false] at hc <;>
      rcases hc with rfl | rfl <;> simp only [DeployCallOk] <;>
      first
        | trivial
        | exact ⟨acct, hg, rfl⟩

theorem tagDockerImage_trace (w : World) (cfg : Config) (acct : String) :
    (tagDockerImage w cfg acct).2
      = [.dockerTag (cfg.repositoryName ++ ("/") ++ cfg.functionName ++ (":latest"))
           (deployImageUri acct cfg.region cfg.repositoryName)] := by
  cases h : w.dockerTag <;> simp [tagDockerImage, h]

theorem pushDockerImage_trace (w : World) (cfg : Config) (acct : String) :
    (pushDockerImage w cfg acct).2
      = [.dockerPush (deployImageUri acct cfg.region cfg.repositoryName)] := by
  cases h : w.dockerPush <;> simp [pushDockerImage, h]

theorem updateLambdaFunction_trace (w : World) (cfg : Config) (acct : String) :
    (updateLambdaFunction w cfg acct).2
      = [.lambdaUpdateFunctionCode cfg.functionName
           (deployImageUri acct cfg.region cfg.repositoryName)] := by
  cases h : w.updateFunctionCode <;> simp [updateLambdaFunction, h]

theorem setupMain_calls_ok (w : World) (env : String) (d : YamlDoc) :
    ∀ c ∈ (setupMain w env (.ok d)).calls, SetupCallOk w (decodeConfig d) env c := by
  intro c hc
  rcases hres : resolveRole w env (decodeConfig d) with ⟨r1, c1⟩
  have hc1 : ∀ x ∈ c1, SetupCallOk w (decodeConfig d) env x := by
    intro x hx
    exact resolveRole_calls_ok w env (decodeConfig d) x (by rw [hres]; exact hx)
  cases r1 with
  | error e =>
    simp only [setupMain, loadConfig, hres] at hc
    exact hc1 c hc
  | ok arn =>
    have harn : env ≠ ("") → arn = env := by
      intro hne
      have h2 := resolveRole_env_nonempty w env (decodeConfig d) hne
      rw [hres] at h2
      injection h2 with h3 h4
      injection h3 with h5
    rcases hg : w.getCallerAccount with o | m | acct
    · simp only [setupMain, loadConfig, hres, getAWSAccountID, hg,
        createECRRepository_trace, List.mem_append, List.mem_cons,
        List.not_mem_nil, or_false] at hc
      rcases hc with (hm | rfl) | rfl
      · exact hc1 c hm
      · simp [SetupCallOk]
      · simp [SetupCallOk]
    · simp only [setupMain, loadConfig, hres, getAWSAccountID, hg,
        createECRRepository_trace, List.mem_append, List.mem_cons,
        List.not_mem_nil, or_false] at hc
      rcases hc with (hm | rfl) | rfl
      · exact hc1 c hm
      · simp [SetupCallOk]
      · simp [SetupCallOk]
    · rcases hbp : buildAndPushDockerImage w (decodeConfig d) acct with ⟨rbp, c4⟩
      have hc4 : ∀ x ∈ c4, SetupCallOk w (decodeConfig d) env x := by
        intro x hx
        exact buildAndPush_calls_ok w env (decodeConfig d) acct hg x
          (by rw [hbp]; exact hx)
      cases rbp with
      | error e =>
        simp only [setupMain, loadConfig, hres, getAWSAccountID, hg, hbp,
          createECRRepository_trace, List.mem_append, List.mem_cons,
          List.not_mem_nil, or_false] at hc
        rcases hc with ((hm | rfl) | rfl) | hm4
        · exact hc1 c hm
        · simp [SetupCallOk]
        · simp [SetupCallOk]
        · exact hc4 c hm4
      | ok u =>
        simp only [setupMain, loadConfig, hres, getAWSAccountID, hg, hbp,
          createECRRepository_trace, createLambdaFunction_trace,
          List.mem_append, List.mem_cons, List.not_mem_nil, or_false] at hc
        rcases hc with (((hm | rfl) | rfl) | hm4) | rfl
        · exact hc1 c hm
        · simp [SetupCallOk]
        · simp [SetupCallOk]
        · exact hc4 c hm4
        · exact ⟨rfl, ⟨acct, hg, rfl⟩, harn⟩

theorem deployMain_calls_ok (w : World) (d : YamlDoc) :
    ∀ c ∈ (deployMain w (.ok d)).calls, DeployCallOk w (decodeConfig d) c := by
  intro c hc
  rcases hg : w.getCallerAccount with o | m | acct
  · simp only [deployMain, loadConfig, checkIAMPermissions,
      getAWSAccountID, hg] at hc
    rcases hi : w.iamGetUser with e | v <;> simp only [hi] at hc <;>
      simp only [List.mem_append, List.mem_cons, List.not_mem_nil,
        or_false] at hc <;>
      rcases hc with rfl | rfl <;> simp [DeployCallOk]
  · simp only [deployMain, loadConfig, checkIAMPermissions,
      getAWSAccountID, hg] at hc
    rcases hi : w.iamGetUser with e | v <;> simp only [hi] at hc <;>
      simp only [List.mem_append, List.mem_cons, List.not_mem_nil,
        or_false] at hc <;>
      rcases hc with rfl | rfl <;> simp [DeployCallOk]
  · rcases hau : authenticateDocker w (decodeConfig d) acct with ⟨rau, cau⟩
    have hcau : ∀ x ∈ cau, DeployCallOk w (decodeConfig d) x := by
      intro x hx
      exact authenticateDocker_calls_ok w (decodeConfig d) acct hg x
        (by rw [hau]; exact hx)
    rcases hi : w.iamGetUser with e | v
    · simp only [deployMain, loadConfig, checkIAMPermissions, hi,
        List.mem_cons, List.not_mem_nil, or_false] at hc
      rcases hc with rfl
      simp [DeployCallOk]
    · rcases hb : w.dockerBuild with e | v₂
      · simp only [deployMain, loadConfig, checkIAMPermissions, hi,
          getAWSAccountID, hg, buildDockerImage, hb, List.mem_append,
          List.mem_cons, List.not_mem_nil, or_false] at hc
        rcases hc with (rfl | rfl) | rfl <;> simp [DeployCallOk]
      · cases rau with
        | error e =>
          simp only [deployMain, loadConfig, checkIAMPermissions, hi,
            getAWSAccountID, hg, buildDockerImage, hb, hau,
            List.mem_append, List.mem_cons, List.not_mem_nil,
            or_false] at hc
          rcases hc with ((rfl | rfl) | rfl) | hm
          · simp [DeployCallOk]
          · simp [DeployCallOk]
          · simp [DeployCallOk]
          · exact hcau c hm
        | ok u =>
          rcases ht : w.dockerTag with e | v₃
          · simp only [deployMain, loadConfig, checkIAMPermissions, hi,
              getAWSAccountID, hg, buildDockerImage, hb, hau,
              tagDockerImage, ht, List.mem_append, List.mem_cons,
              List.not_mem_nil, or_false] at hc
            rcases hc with (((rfl | rfl) | rfl) | hm) | rfl
            · simp [DeployCallOk]
            · simp [DeployCallOk]
            · simp [DeployCallOk]
            · exact hcau c hm
            · exact ⟨rfl, acct, hg, rfl⟩
          · rcases hp : w.dockerPush with e | v₄
            · simp only [deployMain, loadConfig, checkIAMPermissions, hi,
                getAWSAccountID, hg, buildDockerImage, hb, hau,
                tagDockerImage, ht, pushDockerImage, hp, List.mem_append,
                List.mem_cons, List.not_mem_nil, or_false] at hc
              rcases hc with ((((rfl | rfl) | rfl) | hm) | rfl) | rfl
              · simp [DeployCallOk]
              · simp [DeployCallOk]
              · simp [DeployCallOk]
              · exact hcau c hm
              · exact ⟨rfl, acct, hg, rfl⟩
              · exact ⟨acct, hg, rfl⟩
            · rcases hu : w.updateFunctionCode with e | v₅ <;>
                simp only [deployMain, loadConfig, checkIAMPermissions, hi,
                  getAWSAccountID, hg, buildDockerImage, hb, hau,
                  tagDockerImage, ht, pushDockerImage, hp,
                  updateLambdaFunction, hu, List.mem_append, List.mem_cons,
                  List.not_mem_nil, or_false] at hc <;>
                rcases hc with (((((rfl | rfl) | rfl) | hm) | rfl) | rfl) | rfl
              · simp [DeployCallOk]
              · simp [DeployCallOk]
              · simp [DeployCallOk]
              · exact hcau c hm
              · exact ⟨rfl, acct, hg, rfl⟩
              · exact ⟨acct, hg, rfl⟩
              · exact ⟨rfl, acct, hg, rfl⟩
              · simp [DeployCallOk]
              · simp [DeployCallOk]
              · simp [DeployCallOk]
              · exact hcau c hm
              · exact ⟨rfl, acct, hg, rfl⟩
              · exact ⟨acct, hg, rfl⟩
              · exact ⟨rfl, acct, hg, rfl⟩

theorem imageSubSteps_append (l₁ l₂ : List Call) :
    imageSubSteps (l₁ ++ l₂) = imageSubSteps l₁ ++ imageSubSteps l₂ :=
  List.filterMap_append l₁ l₂ subStepOf

theorem imageSubSteps_resolveRole (w : World) (env : String) (cfg : Config) :
    imageSubSteps (resolveRole w env cfg).2 = [] := by
  by_cases he : env = ("")
  · simp only [resolveRole, if_pos he, getOrCreateLambdaExecutionRole]
    cases hg : w.getRole <;> simp only [hg]
    · cases hr : w.createRole <;> simp only [hr]
      · rfl
      · rfl
      · cases ha : w.attachPolicy <;> simp only [ha] <;> rfl
    · rfl
    · rfl
  · simp [resolveRole, he, imageSubSteps]

theorem imageSubSteps_repo (w : World) (cfg : Config) :
    imageSubSteps (createECRRepository w cfg).2 = [] := by
  rw [createECRRepository_trace]
  rfl

theorem imageSubSteps_createFn (w : World) (cfg : Config) (arn acct : String) :
    imageSubSteps (createLambdaFunction w cfg arn acct).2 = [] := by
  rw [createLambdaFunction_trace]
  rfl

theorem buildAndPush_subSteps (w : World) (cfg : Config) (acct : String) :
    imageSubSteps (buildAndPushDockerImage w cfg acct).2
      = seqTrace (setupSubSucc w) setupOrder ∧
    (buildAndPushDockerImage w cfg acct).1.isOkB
      = (setupSubSucc w .authenticate && setupSubSucc w .build &&
         setupSubSucc w .tag && setupSubSucc w .push) := by
  cases hl : w.getLoginPassword <;> cases hb : w.dockerBuild <;>
    cases ht : w.dockerTag <;> cases hp : w.dockerPush <;>
    simp [buildAndPushDockerImage, hl, hb, ht, hp, imageSubSteps, subStepOf,
      seqTrace, setupOrder, setupSubSucc, Except.isOkB]

theorem setupMain_subSteps (w : World) (env : String) (d : YamlDoc)
    (hrole : (resolveRole w env (decodeConfig d)).1.isOkB = true)
    (hacct : w.getCallerAccount.isOkB = true) :
    imageSubSteps (setupMain w env (.ok d)).calls
      = seqTrace (setupSubSucc w) setupOrder ∧
    ((setupSubSucc w .authenticate && setupSubSucc w .build &&
      setupSubSucc w .tag && setupSubSucc w .push) = false →
      (setupMain w env (.ok d)).exitCode = 1) := by
  rcases hres : resolveRole w env (decodeConfig d) with ⟨r1, c1⟩
  rw [hres] at hrole
  have hc1 : imageSubSteps c1 = [] := by
    have h := imageSubSteps_resolveRole w env (decodeConfig d)
    rw [hres] at h
    exact h
  cases r1 with
  | error e => simp [Except.isOkB] at hrole
  | ok arn =>
    rcases hg : w.getCallerAccount with o | m | acct
    · simp [CmdParse.isOkB, hg] at hacct
    · simp [CmdParse.isOkB, hg] at hacct
    · rcases hbp : buildAndPushDockerImage w (decodeConfig d) acct with ⟨rbp, c4⟩
      have hsub := buildAndPush_subSteps w (decodeConfig d) acct
      rw [hbp] at hsub
      obtain ⟨hsub1, hsub2⟩ := hsub
      cases rbp with
      | error e =>
        constructor
        · simp only [setupMain, loadConfig, hres, getAWSAccountID, hg, hbp,
            imageSubSteps_append, hc1, imageSubSteps_repo]
          simpa [imageSubSteps, subStepOf] using hsub1
        · intro hfail
          simp [setupMain, loadConfig, hres, getAWSAccountID, hg, hbp]
      | ok u =>
        constructor
        · simp only [setupMain, loadConfig, hres, getAWSAccountID, hg, hbp,
            imageSubSteps_append, hc1, imageSubSteps_repo,
            imageSubSteps_createFn]
          simpa [imageSubSteps, subStepOf] using hsub1
        · intro hfail
          rw [← hsub2] at hfail
          simp [Except.isOkB] at hfail

theorem deployMain_subSteps (w : World) (d : YamlDoc)
    (hiam : w.iamGetUser.isOkB = true)
    (hacct : w.getCallerAccount.isOkB = true) :
    imageSubSteps (deployMain w (.ok d)).calls
      = seqTrace (deploySubSucc w) deployOrder ∧
    ((deploySubSucc w .build && deploySubSucc w .authenticate &&
      deploySubSucc w .tag && deploySubSucc w .push) = false →
      (deployMain w (.ok d)).exitCode = 1) := by
  rcases hi : w.iamGetUser with e | v
  · simp [Except.isOkB, hi] at hiam
  · rcases hg : w.getCallerAccount with o | m | acct
    · simp [CmdParse.isOkB, hg] at hacct
    · simp [CmdParse.isOkB, hg] at hacct
    · cases hb : w.dockerBuild <;> cases hl : w.getLoginPassword <;>
        cases hdl : w.dockerLogin <;> cases ht : w.dockerTag <;>
        cases hp : w.dockerPush <;> cases hu : w.updateFunctionCode <;>
        simp [deployMain, loadConfig, checkIAMPermissions, hi,
          getAWSAccountID, hg, buildDockerImage, hb, authenticateDocker, hl,
          hdl, tagDockerImage, ht, pushDockerImage, hp,
          updateLambdaFunction, hu, imageSubSteps, subStepOf, seqTrace,
          deployOrder, deploySubSucc, Except.isOkB]

theorem setupMain_exit_zero (w : World) (env : String) (d : YamlDoc)
    (hrole : (resolveRole w env (decodeConfig d)).1.isOkB = true)
    (hacct : w.getCallerAccount.isOkB = true)
    (hpipe : (setupSubSucc w .authenticate && setupSubSucc w .build &&
              setupSubSucc w .tag && setupSubSucc w .push) = true) :
    (setupMain w env (.ok d)).exitCode = 0 := by
  rcases hres : resolveRole w env (decodeConfig d) with ⟨r1, c1⟩
  rw [hres] at hrole
  cases r1 with
  | error e => simp [Except.isOkB] at hrole
  | ok arn =>
    rcases hg : w.getCallerAccount with o | m | acct
    · simp [CmdParse.isOkB, hg] at hacct
    · simp [CmdParse.isOkB, hg] at hacct
    · rcases hbp : buildAndPushDockerImage w (decodeConfig d) acct with ⟨rbp, c4⟩
      have hsub := (buildAndPush_subSteps w (decodeConfig d) acct).2
      rw [hbp] at hsub
      cases rbp with
      | error e =>
        rw [hpipe] at hsub
        simp [Except.isOkB] at hsub
      | ok u =>
        simp [setupMain, loadConfig, hres, getAWSAccountID, hg, hbp]

/-- Claim C1, amended: in a Provision run the image pipeline runs its
sub-steps in the order Authenticate, Build, Tag, Push, while in a Deploy
run the order is Build, Authenticate, Tag, Push; in both modes the
sub-steps are strictly sequential and fail-fast — the sub-step trace is
exactly the longest prefix of the mode order in which every earlier
sub-step succeeded, a failing sub-step is the last one entered, and a
sub-step failure makes the run exit 1. -/
theorem image_pipeline_strictly_sequential (w : World) (env : String)
    (d : YamlDoc)
    (hrole : (resolveRole w env (decodeConfig d)).1.isOkB = true)
    (hiam : w.iamGetUser.isOkB = true)
    (hacct : w.getCallerAccount.isOkB = true) :
    (imageSubSteps (setupMain w env (.ok d)).calls
       = seqTrace (setupSubSucc w) setupOrder ∧
     ((setupSubSucc w .authenticate && setupSubSucc w .build &&
       setupSubSucc w .tag && setupSubSucc w .push) = false →
       (setupMain w env (.ok d)).exitCode = 1)) ∧
    (imageSubSteps (deployMain w (.ok d)).calls
       = seqTrace (deploySubSucc w) deployOrder ∧
     ((deploySubSucc w .build && deploySubSucc w .authenticate &&
       deploySubSucc w .tag && deploySubSucc w .push) = false →
       (deployMain w (.ok d)).exitCode = 1)) :=
  ⟨setupMain_subSteps w env d hrole hacct, deployMain_subSteps w d hiam hacct⟩

/-- Claim C1 witness: concrete run in which the tag sub-step fails — the
hypotheses hold, the traces match the fail-fast reference, and the Deploy
run exits 1. -/
theorem image_pipeline_strictly_sequential_witness :
    ((resolveRole wTagFail ("arn:preset") (decodeConfig exDoc)).1.isOkB = true ∧
     wTagFail.iamGetUser.isOkB = true ∧
     wTagFail.getCallerAccount.isOkB = true) ∧
    imageSubSteps (setupMain wTagFail ("arn:preset") (.ok exDoc)).calls
      = seqTrace (setupSubSucc wTagFail) setupOrder ∧
    imageSubSteps (deployMain wTagFail (.ok exDoc)).calls
      = seqTrace (deploySubSucc wTagFail) deployOrder ∧
    (deployMain wTagFail (.ok exDoc)).exitCode = 1 := by
  have h := image_pipeline_strictly_sequential wTagFail ("arn:preset") exDoc
    rfl rfl rfl
  exact ⟨⟨rfl, rfl, rfl⟩, h.1.1, h.2.1, h.2.2 (by decide)⟩

/-- Claim C1 counterexample: on a fully successful Deploy run the image
pipeline enters Build before Authenticate, so the claimed universal order
Authenticate, Build, Tag, Push does not hold for Deploy runs. -/
theorem deploy_runs_build_before_authenticate :
    imageSubSteps (deployMain allOkWorld (.ok exDoc)).calls
      = [SubStep.build, SubStep.authenticate, SubStep.tag, SubStep.push] ∧
    [SubStep.build, SubStep.authenticate, SubStep.tag, SubStep.push]
      ≠ [SubStep.authenticate, SubStep.build, SubStep.tag, SubStep.push] := by
  exact ⟨rfl, by decide⟩

/-- Claim C2, amended: the create call is issued exactly when the identity
lookup command fails, for any reason whatsoever — the code never inspects
the lookup error, so there is no does-not-exist classification; the
function succeeds exactly when the lookup succeeds or the lookup command
failed and both the create and the attach succeeded; and whenever the
function fails, the Provision run aborts immediately with exit 1, issuing
no call beyond those of the identity phase. -/
theorem role_lookup_unclassified (w : World) (d : YamlDoc) :
    (Call.iamCreateRole (decodeConfig d).roleName
        ∈ (getOrCreateLambdaExecutionRole w (decodeConfig d)).2
      ↔ w.getRole.isCmdErrorB = true) ∧
    ((getOrCreateLambdaExecutionRole w (decodeConfig d)).1.isOkB = true
      ↔ (w.getRole.isOkB = true ∨
         (w.getRole.isCmdErrorB = true ∧ w.createRole.isOkB = true ∧
          w.attachPolicy.isOkB = true))) ∧
    ((getOrCreateLambdaExecutionRole w (decodeConfig d)).1.isOkB = false →
      (setupMain w ("") (.ok d)).exitCode = 1 ∧
      (setupMain w ("") (.ok d)).calls
        = (getOrCreateLambdaExecutionRole w (decodeConfig d)).2) := by
  cases hg : w.getRole <;> cases hr : w.createRole <;>
    cases ha : w.attachPolicy <;>
    simp [getOrCreateLambdaExecutionRole, hg, hr, ha, CmdParse.isOkB,
      CmdParse.isCmdErrorB, Except.isOkB, setupMain, loadConfig, resolveRole]

/-- Claim C2 witness: concrete world in which the lookup command and the
create both fail — the identity phase fails, the Provision run exits 1 and
issues only the identity-phase calls. -/
theorem role_lookup_unclassified_witness :
    (getOrCreateLambdaExecutionRole roleFailWorld exCfg).1.isOkB = false ∧
    (setupMain roleFailWorld ("") (.ok exDoc)).exitCode = 1 ∧
    (setupMain roleFailWorld ("") (.ok exDoc)).calls
      = (getOrCreateLambdaExecutionRole roleFailWorld exCfg).2 := by
  have h := (role_lookup_unclassified roleFailWorld exDoc).2.2 (by rfl)
  exact ⟨by rfl, h.1, h.2⟩

/-- Claim C2 counterexample: the lookup fails with an access-denied output
that carries no does-not-exist marker, yet the create call is still
issued — creation is not restricted to does-not-exist lookup failures. -/
theorem lookup_denied_still_creates :
    deniedWorld.getRole = .cmdError accessDeniedOutput ∧
    containsSubstr accessDeniedOutput ("NoSuchEntity") = false ∧
    Call.iamCreateRole exCfg.roleName
      ∈ (getOrCreateLambdaExecutionRole deniedWorld exCfg).2 := by
  exact ⟨rfl, by decide, by decide⟩

/-- Claim C3, amended: createLambdaFunction classifies a failure whose
output contains the resource-conflict marker as success and reports any
other failure as an error; but an error from createLambdaFunction is only
logged — whenever the earlier fatal steps succeed the Provision run exits
0 regardless of the function-create outcome. -/
theorem createFunction_failure_nonfatal (w : World) (d : YamlDoc)
    (env arn acct out : String) :
    (w.createFunction = .error out →
       containsSubstr out fnConflictMarker = true →
       (createLambdaFunction w (decodeConfig d) arn acct).1 = .ok ()) ∧
    (w.createFunction = .error out →
       containsSubstr out fnConflictMarker = false →
       (createLambdaFunction w (decodeConfig d) arn acct).1.isOkB = false) ∧
    ((resolveRole w env (decodeConfig d)).1.isOkB = true →
     w.getCallerAccount.isOkB = true →
     (setupSubSucc w .authenticate && setupSubSucc w .build &&
      setupSubSucc w .tag && setupSubSucc w .push) = true →
     (setupMain w env (.ok d)).exitCode = 0) := by
  refine ⟨?_, ?_, ?_⟩
  · intro hf hm
    simp [createLambdaFunction, hf, hm]
  · intro hf hm
    simp [createLambdaFunction, hf, hm, Except.isOkB]
  · exact fun h1 h2 h3 => setupMain_exit_zero w env d h1 h2 h3

/-- Claim C3 witness: concrete run in which the function-create fails with
the conflict marker — classified as success — and the run exits 0. -/
theorem createFunction_failure_nonfatal_witness :
    (fnConflictWorld.createFunction = .error fnConflictOutput ∧
     containsSubstr fnConflictOutput fnConflictMarker = true) ∧
    (createLambdaFunction fnConflictWorld exCfg ("arn:preset")
        ("123456789012")).1 = .ok () ∧
    (setupMain fnConflictWorld ("arn:preset") (.ok exDoc)).exitCode = 0 := by
  have h := createFunction_failure_nonfatal fnConflictWorld exDoc
    ("arn:preset") ("arn:preset") ("123456789012") fnConflictOutput
  exact ⟨⟨rfl, by decide⟩, h.1 rfl (by decide), h.2.2 rfl rfl rfl⟩

/-- Claim C3 counterexample: a generic function-create failure, one with
no conflict marker, is reported as an error by createLambdaFunction, yet
the Provision run still exits 0 — the failure is not fatal and the run
does not terminate with a non-zero exit. -/
theorem createFunction_failure_exit_zero :
    containsSubstr fnFailOutput fnConflictMarker = false ∧
    (createLambdaFunction fnBoomWorld exCfg ("arn:preset")
        ("123456789012")).1.isOkB = false ∧
    (setupMain fnBoomWorld ("arn:preset") (.ok exDoc)).exitCode = 0 := by
  exact ⟨by decide, by rfl, by rfl⟩

/-- Claim C4, amended: createECRRepository classifies an already-exists
failure as success and reports any other failure as an error; but the
error is only logged in the Provision run — with the identity phase
successful the run always proceeds to the account lookup regardless of the
repository outcome — and a Deploy run issues no repository-creation call
at all. -/
theorem repo_failure_nonfatal (w : World) (d : YamlDoc) (env out : String) :
    (w.createRepo = .error out →
       containsSubstr out repoExistsMarker = true →
       (createECRRepository w (decodeConfig d)).1 = .ok ()) ∧
    (w.createRepo = .error out →
       containsSubstr out repoExistsMarker = false →
       (createECRRepository w (decodeConfig d)).1.isOkB = false) ∧
    ((resolveRole w env (decodeConfig d)).1.isOkB = true →
       Call.stsGetCallerIdentity ∈ (setupMain w env (.ok d)).calls) ∧
    (∀ n, Call.ecrCreateRepository n ∉ (deployMain w (.ok d)).calls) := by
  refine ⟨?_, ?_, ?_, ?_⟩
  · intro hf hm
    simp [createECRRepository, hf, hm]
  · intro hf hm
    simp [createECRRepository, hf, hm, Except.isOkB]
  · intro h1
    rcases hres : resolveRole w env (decodeConfig d) with ⟨r1, c1⟩
    rw [hres] at h1
    cases r1 with
    | error e => simp [Except.isOkB] at h1
    | ok arn =>
      rcases hg : w.getCallerAccount with o | m | acct
      · simp [setupMain, loadConfig, hres, getAWSAccountID, hg]
      · simp [setupMain, loadConfig, hres, getAWSAccountID, hg]
      · rcases hbp : buildAndPushDockerImage w (decodeConfig d) acct
          with ⟨rbp, c4⟩
        cases rbp <;>
          simp [setupMain, loadConfig, hres, getAWSAccountID, hg, hbp]
  · intro n hm
    have h := deployMain_calls_ok w d _ hm
    simp [DeployCallOk] at h

/-- Claim C4 witness: concrete run in which repository creation fails with
the already-exists marker — classified as success — and the Provision run
continues into the account lookup; the Deploy run of the same world issues
no repository-creation call. -/
theorem repo_failure_nonfatal_witness :
    (repoExistsWorld.createRepo = .error repoExistsOutput ∧
     containsSubstr repoExistsOutput repoExistsMarker = true) ∧
    (createECRRepository repoExistsWorld exCfg).1 = .ok () ∧
    Call.stsGetCallerIdentity
      ∈ (setupMain repoExistsWorld ("arn:preset") (.ok exDoc)).calls ∧
    Call.ecrCreateRepository ("hello-world-repo")
      ∉ (deployMain repoExistsWorld (.ok exDoc)).calls := by
  have h := repo_failure_nonfatal repoExistsWorld exDoc ("arn:preset")
    repoExistsOutput
  exact ⟨⟨rfl, by decide⟩, h.1 rfl (by decide), h.2.2.1 (by rfl),
    h.2.2.2 ("hello-world-repo")⟩

/-- Claim C4 counterexample: a generic repository-creation failure on a
Provision run is reported as an error but the run is not aborted — it
continues into the account lookup and exits 0 — contradicting the claim
that such a failure is fatal in Provision mode. -/
theorem repo_failure_run_continues :
    containsSubstr repoFailOutput repoExistsMarker = false ∧
    (createECRRepository repoBoomWorld exCfg).1.isOkB = false ∧
    (setupMain repoBoomWorld ("arn:preset") (.ok exDoc)).exitCode = 0 ∧
    Call.stsGetCallerIdentity
      ∈ (setupMain repoBoomWorld ("arn:preset") (.ok exDoc)).calls := by
  exact ⟨by decide, by rfl, by rfl, by decide⟩

/-- Claim C5: after a successful config load, teardown cancels with no
deletion calls and exit 0 on any input other than y or Y; on confirmation
with a working session it always issues both the function deletion and the
forced repository deletion and exits 0, whatever the outcome of either
deletion; and every deletion call the run can ever issue presupposes the
affirmative confirmation, with the repository deletion always forced. -/
theorem teardown_confirmation_and_independence (w : World) (d : YamlDoc)
    (input : String) :
    (isAffirmative input = false →
       teardownMain w (.ok d) input
         = { outcome := .cancelled, exitCode := 0, calls := [] }) ∧
    (isAffirmative input = true → w.newSession = .ok () →
       teardownMain w (.ok d) input
         = { outcome := .completed, exitCode := 0,
             calls := [.lambdaDeleteFunction (decodeConfig d).functionName,
                       .ecrDeleteRepository (decodeConfig d).repositoryName
                         true] }) ∧
    (∀ n, Call.lambdaDeleteFunction n ∈ (teardownMain w (.ok d) input).calls →
       isAffirmative input = true) ∧
    (∀ n f, Call.ecrDeleteRepository n f
        ∈ (teardownMain w (.ok d) input).calls →
       isAffirmative input = true ∧ f = true) := by
  cases haff : isAffirmative input <;> cases hs : w.newSession <;>
    simp [teardownMain, loadConfig, haff, hs]

/-- Claim C5 witness: with input n the teardown cancels with no calls and
exit 0; with input y, in a world whose function deletion fails, both
deletion calls are still issued and the run still exits 0. -/
theorem teardown_confirmation_witness :
    (isAffirmative ("n") = false ∧
     teardownMain deleteFailWorld (.ok exDoc) ("n")
       = { outcome := .cancelled, exitCode := 0, calls := [] }) ∧
    (isAffirmative ("y") = true ∧
     deleteFailWorld.deleteFunction = .error ("delete failed") ∧
     teardownMain deleteFailWorld (.ok exDoc) ("y")
       = { outcome := .completed, exitCode := 0,
           calls := [.lambdaDeleteFunction ("hello-world-lambda"),
                     .ecrDeleteRepository ("hello-world-repo") true] }) := by
  refine ⟨⟨by decide, ?_⟩, ⟨by decide, rfl, ?_⟩⟩
  · exact (teardown_confirmation_and_independence deleteFailWorld exDoc
      ("n")).1 (by decide)
  · exact (teardown_confirmation_and_independence deleteFailWorld exDoc
      ("y")).2.1 (by decide) rfl

/-- Claim C6: for a config with a non-empty role name, two runs of
getOrCreateLambdaExecutionRole against the same backing IAM state succeed,
return the same ARN, and the second run issues no create call. -/
theorem ensureExecutionIdentity_idempotent (cfg : Config) (s : IamState)
    (base : World) (_hname : cfg.roleName ≠ ("")) :
    (getOrCreateLambdaExecutionRole (iamWorld cfg s base) cfg).1.isOkB
      = true ∧
    (getOrCreateLambdaExecutionRole (iamWorld cfg s base) cfg).1
      = (getOrCreateLambdaExecutionRole
          (iamWorld cfg (iamStep cfg s) base) cfg).1 ∧
    (∀ n, Call.iamCreateRole n
       ∉ (getOrCreateLambdaExecutionRole
            (iamWorld cfg (iamStep cfg s) base) cfg).2) := by
  rcases s with ⟨ro⟩
  cases ro <;>
    simp [getOrCreateLambdaExecutionRole, iamWorld, iamStep, lookupRole,
      Except.isOkB, CmdParse.isOkB]

/-- Claim C6 witness: starting from a state without the role, the first
run creates it and the second run returns the same ARN with no create
call. -/
theorem ensureExecutionIdentity_idempotent_witness :
    exCfg.roleName ≠ ("") ∧
    (getOrCreateLambdaExecutionRole
        (iamWorld exCfg { role := none } allOkWorld) exCfg).1
      = (getOrCreateLambdaExecutionRole
          (iamWorld exCfg (iamStep exCfg { role := none }) allOkWorld)
          exCfg).1 ∧
    Call.iamCreateRole exCfg.roleName
      ∉ (getOrCreateLambdaExecutionRole
           (iamWorld exCfg (iamStep exCfg { role := none }) allOkWorld)
           exCfg).2 := by
  have h := ensureExecutionIdentity_idempotent exCfg { role := none }
    allOkWorld (by decide)
  exact ⟨by decide, h.2.1, h.2.2 exCfg.roleName⟩

/-- Claim C7: the image reference computed by both pipelines equals
account.dkr.ecr.region.amazonaws.com/repository:latest — it renders the
ImageReference triple of registry host, repository name and the fixed tag
latest, the Provision and Deploy format strings agree, and the concrete
instance of the spec evaluates as required. -/
theorem image_reference_format (acct region repo : String) :
    setupImageUri acct region repo
      = renderImageRef { registryHost := ecrRegistryHost acct region,
                         repositoryName := repo, tag := ("latest") } ∧
    deployImageUri acct region repo = setupImageUri acct region repo ∧
    setupImageUri ("123456789012") ("us-west-2") ("hello-world-repo")
      = ("123456789012.dkr.ecr.us-west-2.amazonaws.com/hello-world-repo:latest") := by
  refine ⟨?_, rfl, rfl⟩
  apply String.ext
  simp [setupImageUri, renderImageRef, ecrRegistryHost, String.data_append]

/-- Claim C8: the handler returns the personalised greeting for a
non-empty name, and the default greeting for an empty or absent name. -/
theorem handleRequest_greeting (e : Event) (o : Option String) :
    (e.name ≠ ("") → handleRequest e = ("Hello, ") ++ e.name ++ ("!")) ∧
    (e.name = ("") → handleRequest e = ("Hello, World!")) ∧
    ((o = none ∨ o = some ("")) →
       handleRequest (decodeEvent o) = ("Hello, World!")) := by
  refine ⟨?_, ?_, ?_⟩
  · intro h
    simp [handleRequest, h]
  · intro h
    simp [handleRequest, h]
  · rintro (rfl | rfl) <;> simp [handleRequest, decodeEvent]

/-- Claim C8 witness: the payload with name Ada yields Hello, Ada! and an
absent name yields Hello, World!. -/
theorem handleRequest_greeting_witness :
    (("Ada") ≠ ("") ∧ handleRequest { name := ("Ada") } = ("Hello, Ada!")) ∧
    handleRequest (decodeEvent none) = ("Hello, World!") := by
  refine ⟨⟨by decide, ?_⟩, ?_⟩
  · exact (handleRequest_greeting { name := ("Ada") } none).1 (by decide)
  · exact (handleRequest_greeting { name := ("Ada") } none).2.2 (Or.inl rfl)

/-- Claim C9, amended: configuration loading performs no validation — a
successful load fills each missing key with the empty string, so fields
may be empty after loading succeeds; the loaded configuration is never
mutated for the remainder of the run: every call a Provision or Deploy run
issues satisfies the corresponding call schema, which pins every
configurable argument — role, repository and function names, docker build
and tag arguments, registry hosts and image URIs — to the loaded fields
and the account the sts lookup returned. -/
theorem config_decode_and_immutable (w : World) (env : String)
    (d : YamlDoc) :
    (loadConfig (.ok d) = .ok (decodeConfig d) ∧
     (decodeConfig d).region = d.region.getD ("") ∧
     (decodeConfig d).profile = d.profile.getD ("") ∧
     (decodeConfig d).functionName = d.functionName.getD ("") ∧
     (decodeConfig d).roleName = d.roleName.getD ("") ∧
     (decodeConfig d).repositoryName = d.repositoryName.getD ("")) ∧
    (∀ c ∈ (setupMain w env (.ok d)).calls,
       SetupCallOk w (decodeConfig d) env c) ∧
    (∀ c ∈ (deployMain w (.ok d)).calls,
       DeployCallOk w (decodeConfig d) c) :=
  ⟨⟨rfl, rfl, rfl, rfl, rfl, rfl⟩,
   setupMain_calls_ok w env d, deployMain_calls_ok w d⟩

/-- Claim C9 witness: in a fully successful Provision run the issued
docker tag call is constrained by the schema — its source is the loaded
repository name and its destination the image URI computed from the
returned account and the loaded region and repository fields. -/
theorem config_decode_and_immutable_witness :
    Call.dockerTag ("hello-world-repo")
        (setupImageUri ("123456789012") ("us-west-2") ("hello-world-repo"))
      ∈ (setupMain allOkWorld ("") (.ok exDoc)).calls ∧
    SetupCallOk allOkWorld (decodeConfig exDoc) ("")
      (Call.dockerTag ("hello-world-repo")
        (setupImageUri ("123456789012") ("us-west-2") ("hello-world-repo"))) := by
  have hm : Call.dockerTag ("hello-world-repo")
      (setupImageUri ("123456789012") ("us-west-2") ("hello-world-repo"))
      ∈ (setupMain allOkWorld ("") (.ok exDoc)).calls := by decide
  exact ⟨hm,
    (config_decode_and_immutable allOkWorld ("") exDoc).2.1 _ hm⟩

/-- Claim C9 counterexample: loading a parsed document with every key
absent succeeds and yields a configuration whose fields are all empty, so
a successful load does not guarantee non-empty fields. -/
theorem load_without_validation :
    loadConfig (.ok emptyDoc)
      = .ok { region := (""), profile := (""), functionName := (""),
              roleName := (""), repositoryName := ("") } ∧
    (decodeConfig emptyDoc).region = ("") ∧
    (decodeConfig emptyDoc).roleName = ("") := by
  exact ⟨rfl, rfl, rfl⟩

/-- Claim C10: when the role environment variable is non-empty, a
Provision run issues no identity lookup, identity create or policy-attach
call, and the role ARN passed to the function-create call is the
environment value verbatim. -/
theorem env_role_bypasses_iam (w : World) (env : String) (d : YamlDoc)
    (henv : env ≠ ("")) :
    (∀ n, Call.iamGetRole n ∉ (setupMain w env (.ok d)).calls) ∧
    (∀ n, Call.iamCreateRole n ∉ (setupMain w env (.ok d)).calls) ∧
    (∀ n p, Call.iamAttachRolePolicy n p ∉ (setupMain w env (.ok d)).calls) ∧
    (∀ n u a, Call.lambdaCreateFunction n u a
        ∈ (setupMain w env (.ok d)).calls → a = env) := by
  refine ⟨?_, ?_, ?_, ?_⟩
  · intro n hm
    exact henv (setupMain_calls_ok w env d _ hm).2
  · intro n hm
    exact henv (setupMain_calls_ok w env d _ hm).2
  · intro n p hm
    exact henv (setupMain_calls_ok w env d _ hm).2.2
  · intro n u a hm
    exact (setupMain_calls_ok w env d _ hm).2.2 henv

/-- Claim C10 witness: with a preset role ARN in the environment, the
fully successful Provision run issues no get-role call and passes the
preset ARN verbatim to the function-create call. -/
theorem env_role_bypasses_iam_witness :
    ("arn:aws:iam::123456789012:role/preset") ≠ ("") ∧
    Call.iamGetRole ("hello-world-role")
      ∉ (setupMain allOkWorld ("arn:aws:iam::123456789012:role/preset")
          (.ok exDoc)).calls ∧
    Call.lambdaCreateFunction ("hello-world-lambda")
        (setupImageUri ("123456789012") ("us-west-2") ("hello-world-repo"))
        ("arn:aws:iam::123456789012:role/preset")
      ∈ (setupMain allOkWorld ("arn:aws:iam::123456789012:role/preset")
          (.ok exDoc)).calls := by
  refine ⟨by decide, ?_, by decide⟩
  exact (env_role_bypasses_iam allOkWorld
    ("arn:aws:iam::123456789012:role/preset") exDoc (by decide)).1
    ("hello-world-role")
